import Mathlib

/-!
# Verification of the ao3.nl metadata extraction pipeline

A shallow embedding of the core of the `ao3.nl` service: the chapters
grammar parser (`src/ao3/meta.rs`, `chapter`/`chapters`), the schema-driven
metadata extractor (`WorkMetadata::work`), the template conversion
(`From<WorkMetadata> for WorkTemplate` and `join_quoted`), and the
cache-gated request handler (`work_response` in `src/main.rs`).

External collaborators (the HTML parser/query engine, the network
transport, the askama templating engine, the byte-level minifier and the
bot-classification oracle) are modelled abstractly: documents are trees of
element nodes with the query semantics the extractor relies on (descendant
search in document order), and the fallible collaborators are oracle
functions supplied as parameters.
-/

namespace Ao3

/-! ## Document model

`scraper::Html` documents are trees of elements.  Each element carries a
tag name, its `class` list, its attributes, and its inner HTML
serialisation (which the extractor reads via `inner_html()`); queries
never inspect the inner HTML, only name/classes/attributes. -/

inductive Node where
  | mk (name : String) (classes : List String) (attrs : List (String × String))
       (innerHtml : String) (children : List Node)

def Node.name : Node → String
  | .mk n _ _ _ _ => n

def Node.classes : Node → List String
  | .mk _ c _ _ _ => c

def Node.attrs : Node → List (String × String)
  | .mk _ _ a _ _ => a

def Node.innerHtml : Node → String
  | .mk _ _ _ h _ => h

def Node.children : Node → List Node
  | .mk _ _ _ _ cs => cs

mutual

/-- All descendants of a node (excluding the node itself), in document
order (pre-order depth-first), as `scraper`'s `ElementRef::select`
traverses them. -/
def Node.descendants : Node → List Node
  | .mk _ _ _ _ cs => Node.descList cs

def Node.descList : List Node → List Node
  | [] => []
  | c :: cs => c :: Node.descendants c ++ Node.descList cs

end

/-- The fragment of CSS selectors the source uses: an optional tag name,
a set of required classes, and required attribute values
(`a.tag`, `h2.title`, `a[rel="author"]`, `dl.work`, `dd.rating`, ...). -/
structure Selector where
  tagName : Option String
  requiredClasses : List String
  requiredAttrs : List (String × String)

def Node.attr (n : Node) (key : String) : Option String :=
  (n.attrs.find? (fun p => p.1 = key)).map (·.2)

def matchesSel (n : Node) (s : Selector) : Bool :=
  (match s.tagName with
   | some t => n.name = t
   | none => true) &&
  s.requiredClasses.all (fun c => n.classes.contains c) &&
  s.requiredAttrs.all (fun p => n.attr p.1 = some p.2)

/-- `element.select(&sel)`: every descendant matching the selector, in
document order. -/
def select (n : Node) (s : Selector) : List Node :=
  n.descendants.filter (fun d => matchesSel d s)

/-! The selectors from the `lazy_static!` block of `src/ao3/meta.rs`. -/

def TAG : Selector := ⟨some "a", ["tag"], []⟩
def TITLE : Selector := ⟨some "h2", ["title"], []⟩
def AUTHOR : Selector := ⟨some "a", [], [("rel", "author")]⟩
def META_BLOCK : Selector := ⟨some "dl", ["work"], []⟩
def RATING : Selector := ⟨some "dd", ["rating"], []⟩
def WARNING : Selector := ⟨some "dd", ["warning"], []⟩
def CATEGORY : Selector := ⟨some "dd", ["category"], []⟩
def FANDOMS : Selector := ⟨some "dd", ["fandom"], []⟩
def RELATIONSHIPS : Selector := ⟨some "dd", ["relationship"], []⟩
def CHARACTERS : Selector := ⟨some "dd", ["character"], []⟩
def FREEFORMS : Selector := ⟨some "dd", ["freeform"], []⟩
def LANGUAGE : Selector := ⟨some "dd", ["language"], []⟩
def STATS_BLOCK : Selector := ⟨some "dl", ["stats"], []⟩
def PUBLISHED_DATE : Selector := ⟨some "dd", ["published"], []⟩
def WORDS : Selector := ⟨some "dd", ["words"], []⟩
def CHAPTERS : Selector := ⟨some "dd", ["chapters"], []⟩

/-! ## Error taxonomy (`WorkError` in `src/ao3/meta.rs`)

The payload-carrying variants (`RequestError(reqwest::Error)`,
`TemplatingError(askama::Error)`, `Minify(FromUtf8Error)`,
`IntError(ParseIntError)`) carry only collaborator diagnostics, which no
code path inspects, so they are modelled as bare constructors. -/

inductive WorkError where
  | WorkError
  | ParsingError
  | RequestError
  | TemplatingError
  | Minify
  | IntError
deriving DecidableEq, Repr

/-! ## The chapters grammar parser (`chapter` / `chapters`)

`chapter` is `map_res(recognize(digit1), str::parse::<u16>)`: it consumes
a maximal non-empty run of ASCII decimal digits and fails unless its
numeric value fits in `u16` (on an all-digit string Rust's
`str::parse::<u16>` succeeds exactly when the value is below `2 ^ 16`).
`chapters` then requires a literal `"/"` and an optional second
`chapter`.  nom results are modelled as `Option (remaining × output)`. -/

def valDigits (l : List Char) : Nat :=
  l.foldl (fun a c => a * 10 + (c.toNat - 48)) 0

/-- `digit1`'s consumption: split off the maximal leading digit run. -/
def spanDigits : List Char → List Char × List Char
  | [] => ([], [])
  | c :: cs =>
    if c.isDigit then
      let p := spanDigits cs
      (c :: p.1, p.2)
    else ([], c :: cs)

def chapter (input : List Char) : Option (List Char × Nat) :=
  match spanDigits input with
  | ([], _) => none
  | (d :: ds, rest) =>
    if valDigits (d :: ds) < 2 ^ 16 then some (rest, valDigits (d :: ds)) else none

def chapters (input : List Char) : Option (List Char × (Nat × Option Nat)) :=
  match chapter input with
  | none => none
  | some (input1, chapter_value) =>
    match input1 with
    | '/' :: input2 =>
      match chapter input2 with
      | some (input3, t) => some (input3, (chapter_value, some t))
      | none => some (input2, (chapter_value, none))
    | _ => none

/-- The call-site use of `chapters` in `WorkMetadata::work`: the parse
succeeds only when the entire input is consumed (`Ok(("", pair))`);
everything else is `WorkError::ParsingError`. -/
def parseChapters (s : String) : Except WorkError (Nat × Option Nat) :=
  match chapters s.data with
  | some ([], pair) => .ok pair
  | _ => .error .ParsingError

/-! ## Numeric fields -/

/-- Models `.replace(",", "")`: with a single-character pattern and empty
replacement, Rust's `str::replace` deletes every occurrence of that
character. -/
def stripCommas (s : String) : String :=
  ⟨s.data.filter (fun c => c ≠ ',')⟩

/-- Rust's `str::parse::<u64>`: an optional leading `'+'`, then a
non-empty run of ASCII digits, value below `2 ^ 64`; anything else is a
`ParseIntError`. -/
def parseU64 (s : String) : Option Nat :=
  let cs := match s.data with
    | '+' :: rest => rest
    | cs => cs
  if !cs.isEmpty && cs.all Char.isDigit then
    if valDigits cs < 2 ^ 64 then some (valDigits cs) else none
  else none

/-- The words field: `.inner_html().replace(",", "").parse::<u64>()?`,
a failed parse surfacing as `WorkError::IntError`. -/
def parseWords (s : String) : Except WorkError Nat :=
  match parseU64 (stripCommas s) with
  | some n => .ok n
  | none => .error .IntError

/-! ## The metadata record and extraction -/

structure WorkMetadata where
  id : Nat
  redirect_url : String
  title : String
  author : String
  author_url : String
  published_date : String
  fandoms : List String
  warnings : List String
  relationships : List String
  characters : List String
  tags : List String
  words : Nat
  chapter : Nat
  total_chapters : Option Nat
deriving DecidableEq, Repr

structure Tag where
  href : Option String
  text : String
deriving DecidableEq, Repr

def get_tags (element : Node) : List Tag :=
  (select element TAG).map (fun t => { href := t.attr "href", text := t.innerHtml })

def select_one (parent : Node) (s : Selector) : Except WorkError Node :=
  match (select parent s).head? with
  | some e => .ok e
  | none => .error .WorkError

/-- `WorkMetadata::work` after the network fetch: the schema-driven
extraction from the parsed document.  The `id` and `redirect_url`
arguments and the step order follow the source; `html` stands for the
fetched, parsed document.  `?`-propagation is the explicit
`.error e => .error e` arm of each match. -/
def WorkMetadata.work (id : Nat) (redirect_url : String) (html : Node) :
    Except WorkError WorkMetadata :=
  match (select html META_BLOCK).head? with
  | none => .error .WorkError
  | some meta =>
   match (select meta STATS_BLOCK).head? with
   | none => .error .WorkError
   | some stats =>
    match (select html TITLE).head? with
    | none => .error .WorkError
    | some titleEl =>
     match (select html AUTHOR).head? with
     | none => .error .WorkError
     | some author_element =>
      match author_element.attr "href" with
      | none => .error .WorkError
      | some author_url =>
       match select_one meta RATING with
       | .error e => .error e
       | .ok ratingEl =>
        match (get_tags ratingEl).head? with
        | none => .error .WorkError
        | some _rating =>
         match select_one meta WARNING with
         | .error e => .error e
         | .ok warningEl =>
          match select_one meta CATEGORY with
          | .error e => .error e
          | .ok categoryEl =>
           match (get_tags categoryEl).head? with
           | none => .error .WorkError
           | some _category =>
            match select_one meta FANDOMS with
            | .error e => .error e
            | .ok fandomEl =>
             match select_one meta RELATIONSHIPS with
             | .error e => .error e
             | .ok relationshipEl =>
              match select_one meta CHARACTERS with
              | .error e => .error e
              | .ok characterEl =>
               match select_one meta FREEFORMS with
               | .error e => .error e
               | .ok freeformEl =>
                match select_one stats PUBLISHED_DATE with
                | .error e => .error e
                | .ok publishedEl =>
                 match select_one stats WORDS with
                 | .error e => .error e
                 | .ok wordsEl =>
                  match parseWords wordsEl.innerHtml with
                  | .error e => .error e
                  | .ok wordCount =>
                   match select_one stats CHAPTERS with
                   | .error e => .error e
                   | .ok chaptersEl =>
                    match parseChapters chaptersEl.innerHtml with
                    | .error e => .error e
                    | .ok (chapterNum, total_chapters) =>
                     .ok {
                       id := id
                       redirect_url := redirect_url
                       title := titleEl.innerHtml
                       author := author_element.innerHtml
                       author_url := author_url
                       published_date := publishedEl.innerHtml
                       fandoms := (get_tags fandomEl).map Tag.text
                       warnings := (get_tags warningEl).map Tag.text
                       relationships := (get_tags relationshipEl).map Tag.text
                       characters := (get_tags characterEl).map Tag.text
                       tags := (get_tags freeformEl).map Tag.text
                       words := wordCount
                       chapter := chapterNum
                       total_chapters := total_chapters }

/-! Statement-side projections naming the extraction's access paths. -/

def metaOf (doc : Node) : Option Node := (select doc META_BLOCK).head?

def statsOf (doc : Node) : Option Node :=
  (metaOf doc).bind (fun m => (select m STATS_BLOCK).head?)

def wordsTextOf (doc : Node) : Option String :=
  (statsOf doc).bind (fun s => ((select s WORDS).head?).map Node.innerHtml)

def chaptersTextOf (doc : Node) : Option String :=
  (statsOf doc).bind (fun s => ((select s CHAPTERS).head?).map Node.innerHtml)

/-! ## Response Composer (`WorkTemplate`, `join_quoted`, `render_html`) -/

/-- `EmbedRequest` from `src/lib.rs`. -/
structure EmbedRequest where
  id : Nat
  author : String
  words : Nat
  chapters : Nat
  total_chapters : String
  date : String
deriving DecidableEq, Repr

/-- `join_quoted`: `intersperse_with(|| ", ")` then collect into one
string, i.e. the labels joined by `", "` (no quotation marks are
added). -/
def join_quoted (strings : List String) : String :=
  String.join (List.intersperse ", " strings)

structure WorkTemplate where
  id : Nat
  redirect_url : String
  author_url : String
  title : String
  author : String
  description : String
  embed_url : String
deriving DecidableEq, Repr

/-- `From<WorkMetadata> for WorkTemplate`.  `host` stands for
`env::var("HOST")`'s result (default applied by the caller) and
`encodeForm` for `serde_urlencoded::to_string` (an external serialiser
whose `.unwrap()` the source assumes never fails). -/
def workTemplateOfMetadata (host : String) (encodeForm : EmbedRequest → String)
    (work : WorkMetadata) : WorkTemplate :=
  let embed_request : EmbedRequest := {
    id := work.id
    author := work.author
    words := work.words
    chapters := work.chapter
    total_chapters := (work.total_chapters.map toString).getD "?"
    date := work.published_date }
  let embed_url := host ++ "/oembed?" ++ encodeForm embed_request
  { id := work.id
    redirect_url := work.redirect_url
    title := work.title
    author := work.author
    author_url := work.author_url
    description :=
      let warnings := join_quoted work.warnings
      let characters := join_quoted work.characters
      let tags := join_quoted work.tags
      warnings ++ "\n" ++ characters ++ "\n" ++ tags
    embed_url := embed_url }

/-- The external collaborators of the request gate: the bot oracle
(`isbot`), the fetch-and-extract routine (`WorkMetadata::work` including
its network fetch), the askama template renderer, the byte-level
minifier (infallible, returns bytes) and `String::from_utf8`. -/
structure Ctx where
  isBot : String → Bool
  fetchWork : Nat → Except WorkError WorkMetadata
  render : WorkTemplate → Option String
  minify : String → List Nat
  fromUtf8 : List Nat → Option String
  host : String
  encodeForm : EmbedRequest → String

/-- `WorkTemplate::render_html`: askama render (`TemplatingError` on
failure), then minify (infallible), then `String::from_utf8`
(`Minify` on failure). -/
def render_html (ctx : Ctx) (t : WorkTemplate) : Except WorkError String :=
  match ctx.render t with
  | none => .error .TemplatingError
  | some html =>
    match ctx.fromUtf8 (ctx.minify html) with
    | none => .error .Minify
    | some s => .ok s

/-! ## Cache Gate and Request Gate (`work_response` in `src/main.rs`) -/

def Cache : Type := Nat → Option WorkMetadata

def Cache.insert (c : Cache) (id : Nat) (w : WorkMetadata) : Cache :=
  fun k => if k = id then some w else c k

/-- The cache-gated lookup, lines 65–79 of `src/main.rs`: on hit return
the cached value; on miss run fetch-and-extract, inserting into the
cache only on success.  The third component instruments the number of
underlying fetch-and-extract invocations (0 or 1). -/
def getOrFetch (fetchW : Nat → Except WorkError WorkMetadata) (cache : Cache) (id : Nat) :
    Option WorkMetadata × Cache × Nat :=
  match cache id with
  | some w => (some w, cache, 0)
  | none =>
    match fetchW id with
    | .ok w => (some w, cache.insert id w, 1)
    | .error _ => (none, cache, 1)

inductive Response where
  | redirect (url : String)
  | html (body : String)
deriving DecidableEq, Repr

/-- `format!("https://archiveofourown.org/works/{}/{}", id, path.unwrap_or_else(|| String::from("")))`. -/
def redirectUrlFor (id : Nat) (path : Option String) : String :=
  "https://archiveofourown.org/works/" ++ toString id ++ "/" ++ path.getD ""

/-- `work_response`: the view-work handler.  Returns the response, the
cache after the request, and the number of fetch-and-extract calls
performed. -/
def work_response (ctx : Ctx) (id : Nat) (path : Option String) (user_agent : String)
    (cache : Cache) : Response × Cache × Nat :=
  if !ctx.isBot user_agent then
    (.redirect (redirectUrlFor id path), cache, 0)
  else
    match getOrFetch ctx.fetchWork cache id with
    | (none, cache2, n) => (.redirect (redirectUrlFor id path), cache2, n)
    | (some work, cache2, n) =>
      match render_html ctx (workTemplateOfMetadata ctx.host ctx.encodeForm work) with
      | .error _ => (.redirect (redirectUrlFor id path), cache2, n)
      | .ok html => (.html html, cache2, n)

/-! ## Spec-side definitions (for refinement comparison) -/

/-- The spec's grammar for the chapters token, in its own words: one or
more decimal digits, a literal `/`, optionally one or more decimal
digits, nothing else before or after.  (Defined from the spec, not from
the source, to compare the two.) -/
def specChaptersGrammar (s : String) : Bool :=
  match s.data.span Char.isDigit with
  | (d1, r) =>
    !d1.isEmpty &&
      (match r with
       | '/' :: d2 => d2.all Char.isDigit
       | _ => false)

/-- Successful-parse shape: the spec's grammar decomposition together
with the `u16` range bounds that `str::parse::<u16>` imposes. -/
def ChaptersShapeOk (s : String) (c : Nat) (ot : Option Nat) : Prop :=
  ∃ d1 d2 : List Char,
    s.data = d1 ++ '/' :: d2 ∧ d1 ≠ [] ∧ d1.all Char.isDigit = true ∧
    d2.all Char.isDigit = true ∧
    c = valDigits d1 ∧ c < 2 ^ 16 ∧
    ((d2 = [] ∧ ot = none) ∨ (d2 ≠ [] ∧ valDigits d2 < 2 ^ 16 ∧ ot = some (valDigits d2)))

/-! ## Lemmas about the grammar parser -/

theorem spanDigits_append (l : List Char) : (spanDigits l).1 ++ (spanDigits l).2 = l := by
  induction l with
  | nil => rfl
  | cons c cs ih =>
    by_cases h : c.isDigit
    · simp [spanDigits, h, ih]
    · simp [spanDigits, h]

theorem spanDigits_all (l : List Char) : (spanDigits l).1.all Char.isDigit = true := by
  induction l with
  | nil => rfl
  | cons c cs ih =>
    by_cases h : c.isDigit
    · simp [spanDigits, h, ih]
    · simp [spanDigits, h]

theorem spanDigits_rest (l : List Char) :
    (spanDigits l).2 = [] ∨ ∃ c cs, (spanDigits l).2 = c :: cs ∧ c.isDigit = false := by
  induction l with
  | nil => left; rfl
  | cons c cs ih =>
    by_cases h : c.isDigit
    · simpa [spanDigits, h] using ih
    · right; exact ⟨c, cs, by simp [spanDigits, h], by simpa using h⟩

theorem spanDigits_eq_of (d r : List Char) (hd : d.all Char.isDigit = true)
    (hr : r = [] ∨ ∃ c cs, r = c :: cs ∧ c.isDigit = false) :
    spanDigits (d ++ r) = (d, r) := by
  induction d with
  | nil =>
    simp only [List.nil_append]
    rcases hr with h | ⟨c, cs, hr', hc⟩
    · subst h; rfl
    · subst hr'; simp [spanDigits, hc]
  | cons a as ih =>
    simp only [List.all_cons, Bool.and_eq_true] at hd
    simp [spanDigits, hd.1, ih hd.2]

theorem chapter_eq_some_iff (input rest : List Char) (n : Nat) :
    chapter input = some (rest, n) ↔
      ∃ d, input = d ++ rest ∧ d ≠ [] ∧ d.all Char.isDigit = true ∧
        (rest = [] ∨ ∃ c cs, rest = c :: cs ∧ c.isDigit = false) ∧
        n = valDigits d ∧ n < 2 ^ 16 := by
  constructor
  · intro h
    unfold chapter at h
    rcases hsp : spanDigits input with ⟨d, r⟩
    rw [hsp] at h
    cases d with
    | nil => simp at h
    | cons a as =>
      simp only at h
      split at h
      · rename_i hlt
        simp only [Option.some.injEq, Prod.mk.injEq] at h
        obtain ⟨hr, hn⟩ := h
        subst hr
        refine ⟨a :: as, ?_, by simp, ?_, ?_, hn.symm, by omega⟩
        · have := spanDigits_append input
          rw [hsp] at this
          exact this.symm
        · have := spanDigits_all input
          rw [hsp] at this
          exact this
        · have := spanDigits_rest input
          rw [hsp] at this
          exact this
      · exact absurd h (by simp)
  · rintro ⟨d, hin, hne, hdig, hrest, hn, hlt⟩
    subst hin
    unfold chapter
    rw [spanDigits_eq_of d rest hdig hrest]
    cases d with
    | nil => exact absurd rfl hne
    | cons a as =>
      simp only
      rw [if_pos (by omega)]
      simp [hn]

theorem parseChapters_eq_ok_iff (s : String) (c : Nat) (ot : Option Nat) :
    parseChapters s = .ok (c, ot) ↔ ChaptersShapeOk s c ot := by
  have hmain : chapters s.data = some ([], (c, ot)) ↔ ChaptersShapeOk s c ot := by
    constructor
    · intro h
      unfold chapters at h
      rcases h1 : chapter s.data with _ | ⟨input1, c1⟩
      · rw [h1] at h; simp at h
      · rw [h1] at h
        cases input1 with
        | nil => simp at h
        | cons a input2 =>
          by_cases ha : a = '/'
          · subst ha
            simp only at h
            rcases h2 : chapter input2 with _ | ⟨input3, t⟩
            · rw [h2] at h
              simp only [Option.some.injEq, Prod.mk.injEq] at h
              obtain ⟨hi2, hc1, hot⟩ := h
              subst hi2
              rw [chapter_eq_some_iff] at h1
              obtain ⟨d, hin, hne, hdig, _, hn, hlt⟩ := h1
              exact ⟨d, [], by simpa using hin, hne, hdig, rfl, by omega, by omega,
                by left; exact ⟨rfl, hot.symm⟩⟩
            · rw [h2] at h
              simp only [Option.some.injEq, Prod.mk.injEq] at h
              obtain ⟨hi3, hc1, hot⟩ := h
              subst hi3
              rw [chapter_eq_some_iff] at h1 h2
              obtain ⟨d1, hin1, hne1, hdig1, _, hn1, hlt1⟩ := h1
              obtain ⟨d2, hin2, hne2, hdig2, _, hn2, hlt2⟩ := h2
              subst hin2
              refine ⟨d1, d2 ++ [], by simpa using hin1, hne1, hdig1, by simpa using hdig2,
                by omega, by omega, ?_⟩
              right
              refine ⟨by simpa using hne2, by simpa using by omega, ?_⟩
              simp [← hot, hn2]
          · simp only at h
            split at h
            · rename_i heq
              rw [List.cons.injEq] at heq
              exact absurd heq.1 ha
            · simp at h
    · rintro ⟨d1, d2, hs, hne1, hdig1, hdig2, hc, hlt, hcase⟩
      unfold chapters
      have h1 : chapter s.data = some ('/' :: d2, c) := by
        rw [chapter_eq_some_iff]
        exact ⟨d1, hs, hne1, hdig1, by right; exact ⟨'/', d2, rfl, by decide⟩, hc, hlt⟩
      rw [h1]
      rcases hcase with ⟨hd2, hot⟩ | ⟨hd2, hlt2, hot⟩
      · subst hd2; subst hot
        have h2 : chapter ([] : List Char) = none := rfl
        simp [h2]
      · have h2 : chapter d2 = some ([], valDigits d2) := by
          rw [chapter_eq_some_iff]
          exact ⟨d2, by simp, hd2, hdig2, by left; rfl, rfl, hlt2⟩
        simp [h2, hot]
  constructor
  · intro h
    rw [← hmain]
    unfold parseChapters at h
    rcases h' : chapters s.data with _ | ⟨rem, pair⟩
    · rw [h'] at h; simp at h
    · rw [h'] at h
      cases rem with
      | nil => simp_all
      | cons x xs => simp at h
  · intro h
    rw [← hmain] at h
    unfold parseChapters
    rw [h]

/-! ## Lemmas about the extraction steps -/

theorem select_one_eq_error_iff (p : Node) (sel : Selector) (e : WorkError) :
    select_one p sel = .error e ↔ select p sel = [] ∧ e = .WorkError := by
  unfold select_one
  cases h : (select p sel).head? with
  | none =>
    rw [List.head?_eq_none_iff] at h
    simp [h, eq_comm]
  | some el =>
    simp only [reduceCtorEq, false_iff, not_and]
    intro hnil
    rw [hnil] at h
    simp at h

theorem select_one_eq_ok_iff (p : Node) (sel : Selector) (el : Node) :
    select_one p sel = .ok el ↔ (select p sel).head? = some el := by
  unfold select_one
  cases h : (select p sel).head? <;> simp

theorem parseWords_eq_error_iff (s : String) (e : WorkError) :
    parseWords s = .error e ↔ parseU64 (stripCommas s) = none ∧ e = .IntError := by
  unfold parseWords
  cases h : parseU64 (stripCommas s) <;> simp [eq_comm]

theorem head_some_ne_nil {α : Type} {l : List α} {a : α} (h : l.head? = some a) : l ≠ [] := by
  intro hnil
  rw [hnil] at h
  simp at h

/-- Inversion of a successful extraction: `WorkMetadata::work` returns
`Ok` exactly when every required query succeeds, and the produced record
is built field-by-field from those query results. -/
theorem work_eq_ok_iff (id : Nat) (ru : String) (html : Node) (md : WorkMetadata) :
    WorkMetadata.work id ru html = .ok md ↔
      ∃ meta stats titleEl author_element author_url rt ct ratingEl warningEl categoryEl
        fandomEl relationshipEl characterEl freeformEl publishedEl wordsEl wordCount
        chaptersEl chapterNum total_chapters,
        (select html META_BLOCK).head? = some meta ∧
        (select meta STATS_BLOCK).head? = some stats ∧
        (select html TITLE).head? = some titleEl ∧
        (select html AUTHOR).head? = some author_element ∧
        author_element.attr "href" = some author_url ∧
        select_one meta RATING = .ok ratingEl ∧
        (get_tags ratingEl).head? = some rt ∧
        select_one meta WARNING = .ok warningEl ∧
        select_one meta CATEGORY = .ok categoryEl ∧
        (get_tags categoryEl).head? = some ct ∧
        select_one meta FANDOMS = .ok fandomEl ∧
        select_one meta RELATIONSHIPS = .ok relationshipEl ∧
        select_one meta CHARACTERS = .ok characterEl ∧
        select_one meta FREEFORMS = .ok freeformEl ∧
        select_one stats PUBLISHED_DATE = .ok publishedEl ∧
        select_one stats WORDS = .ok wordsEl ∧
        parseWords wordsEl.innerHtml = .ok wordCount ∧
        select_one stats CHAPTERS = .ok chaptersEl ∧
        parseChapters chaptersEl.innerHtml = .ok (chapterNum, total_chapters) ∧
        md = { id := id, redirect_url := ru, title := titleEl.innerHtml,
               author := author_element.innerHtml, author_url := author_url,
               published_date := publishedEl.innerHtml,
               fandoms := (get_tags fandomEl).map Tag.text,
               warnings := (get_tags warningEl).map Tag.text,
               relationships := (get_tags relationshipEl).map Tag.text,
               characters := (get_tags characterEl).map Tag.text,
               tags := (get_tags freeformEl).map Tag.text,
               words := wordCount, chapter := chapterNum,
               total_chapters := total_chapters } := by
  constructor
  · intro h
    unfold WorkMetadata.work at h
    repeat' split at h
    all_goals try exact Except.noConfusion h
    injection h with h2
    subst h2
    repeat' apply Exists.intro
    repeat' apply And.intro
    all_goals first | assumption | rfl
  · rintro ⟨meta, stats, titleEl, author_element, author_url, rt, ct, ratingEl, warningEl,
      categoryEl, fandomEl, relationshipEl, characterEl, freeformEl, publishedEl, wordsEl,
      wordCount, chaptersEl, chapterNum, total_chapters,
      h1, h2, h3, h4, h5, h6, h7, h8, h9, h10, h11, h12, h13, h14, h15, h16, h17, h18, h19, hmd⟩
    subst hmd
    unfold WorkMetadata.work
    simp only [h1, h2, h3, h4, h5, h6, h7, h8, h9, h10, h11, h12, h13, h14, h15, h16, h17,
      h18, h19]

/-! ## Concrete documents for witnesses and counterexamples -/

def mkTag (t : String) : Node := .mk "a" ["tag"] [("href", "/t")] t []

def dd (cls : String) (inner : String) (cs : List Node) : Node := .mk "dd" [cls] [] inner cs

def titleNode : Node := .mk "h2" ["title"] [] "My Title" []

def authorNode : Node := .mk "a" [] [("rel", "author"), ("href", "/users/jane")] "Jane" []

def statsBlockNode (kids : List Node) : Node := .mk "dl" ["stats"] [] "" kids

def workBlockNode (kids : List Node) : Node := .mk "dl" ["work"] [] "" kids

def docRoot (kids : List Node) : Node := .mk "body" [] [] "" kids

/-- Standard tag-block children of the metadata block. -/
def stdMeta (ratingTags warningTags categoryTags fandomTags relTags charTags freeTags : List Node) :
    List Node :=
  [dd "rating" "" ratingTags, dd "warning" "" warningTags, dd "category" "" categoryTags,
   dd "fandom" "" fandomTags, dd "relationship" "" relTags, dd "character" "" charTags,
   dd "freeform" "" freeTags]

def stdStats : List Node :=
  [dd "published" "2024-01-01" [], dd "words" "12,345" [], dd "chapters" "3/7" []]

/-- A fully well-formed document: fandoms A, B, C in that structural
order, no warning tags, words `"12,345"`, chapters `"3/7"`. -/
def okDoc : Node :=
  docRoot [titleNode, authorNode,
    workBlockNode
      (stdMeta [mkTag "General"] [] [mkTag "Gen"] [mkTag "A", mkTag "B", mkTag "C"] []
        [mkTag "Alice"] [mkTag "Fluff"] ++ [statsBlockNode stdStats])]

/-- Like `okDoc` but with no `h2.title` element. -/
def noTitleDoc : Node :=
  docRoot [authorNode,
    workBlockNode
      (stdMeta [mkTag "General"] [mkTag "W"] [mkTag "Gen"] [] [] [] []
        ++ [statsBlockNode stdStats])]

/-- Well-formed everywhere except: the words text is not a number and
the stats block has no `dd.chapters` at all. -/
def badWordsNoChaptersDoc : Node :=
  docRoot [titleNode, authorNode,
    workBlockNode
      (stdMeta [mkTag "General"] [mkTag "W"] [mkTag "Gen"] [] [] [] []
        ++ [statsBlockNode [dd "published" "2024-01-01" [], dd "words" "x" []]])]

/-- C2 (amended): the chapters parse is a total function on strings with
exactly two outcomes.  It succeeds, with `(chapter, Some total)` resp.
`(chapter, None)`, exactly on inputs of the form
digits `/` optional-digits with nothing else before or after AND whose
digit groups each denote a value below `2 ^ 16` (the `u16` range that
`str::parse::<u16>` inside the parser imposes); on every other input —
including grammar-shaped inputs whose numbers overflow `u16` — it fails
with `ParsingError` and no partial result. -/
theorem chapters_grammar_characterization (s : String) :
    (∀ c ot, parseChapters s = .ok (c, ot) ↔ ChaptersShapeOk s c ot) ∧
    (parseChapters s = .error .ParsingError ∨ ∃ c ot, parseChapters s = .ok (c, ot)) := by
  refine ⟨fun c ot => parseChapters_eq_ok_iff s c ot, ?_⟩
  unfold parseChapters
  rcases chapters s.data with _ | ⟨rem, c, ot⟩
  · left; rfl
  · cases rem with
    | nil => right; exact ⟨c, ot, rfl⟩
    | cons x xs => left; rfl

/-- C2 counterexample: `"65536/1"` consists of one or more decimal
digits, a literal `/`, and one or more decimal digits — the claim says
every such input parses successfully — yet the parser rejects it,
because 65536 does not fit in `u16`. -/
theorem chapters_grammar_counterexample :
    specChaptersGrammar "65536/1" = true ∧
    parseChapters "65536/1" = .error .ParsingError := ⟨rfl, rfl⟩

/-- C2 witness: the characterization instantiated at `"5/10"`
reproduces the spec's first example, `parse("5/10") = (5, Some(10))`. -/
theorem chapters_grammar_witness : parseChapters "5/10" = .ok (5, some 10) :=
  ((chapters_grammar_characterization "5/10").1 5 (some 10)).mpr
    ⟨['5'], ['1', '0'], by decide, by decide, by decide, by decide, by decide, by decide,
      Or.inr ⟨by decide, by decide, by decide⟩⟩

/-- C3 (amended): extraction is all-or-nothing.  Whenever a mandatory
structural query matches zero nodes, no `WorkMetadata` is produced, and
the result is the `NotFound`-style error (`WorkError::WorkError`)
provided every field examined earlier in the extraction's fixed order is
present and well-formed; for the one query checked after a fallible
numeric parse (`dd.chapters`, checked after the word-count parse) this
requires the word-count parse to have succeeded.  Conversely a
successful extraction implies every mandatory query matched. -/
theorem extraction_all_or_nothing (doc : Node) (id : Nat) (ru : String) :
    (select doc META_BLOCK = [] → WorkMetadata.work id ru doc = .error .WorkError) ∧
    (select doc TITLE = [] → WorkMetadata.work id ru doc = .error .WorkError) ∧
    (select doc AUTHOR = [] → WorkMetadata.work id ru doc = .error .WorkError) ∧
    (∀ a, (select doc AUTHOR).head? = some a → a.attr "href" = none →
      WorkMetadata.work id ru doc = .error .WorkError) ∧
    (∀ m, (select doc META_BLOCK).head? = some m →
      (select m STATS_BLOCK = [] ∨ select m RATING = [] ∨ select m WARNING = [] ∨
       select m CATEGORY = [] ∨ select m FANDOMS = [] ∨ select m RELATIONSHIPS = [] ∨
       select m CHARACTERS = [] ∨ select m FREEFORMS = []) →
      WorkMetadata.work id ru doc = .error .WorkError) ∧
    (∀ m s, (select doc META_BLOCK).head? = some m → (select m STATS_BLOCK).head? = some s →
      (select s PUBLISHED_DATE = [] ∨ select s WORDS = []) →
      WorkMetadata.work id ru doc = .error .WorkError) ∧
    (∀ m s wEl w, (select doc META_BLOCK).head? = some m →
      (select m STATS_BLOCK).head? = some s → (select s WORDS).head? = some wEl →
      parseWords wEl.innerHtml = .ok w → select s CHAPTERS = [] →
      WorkMetadata.work id ru doc = .error .WorkError) ∧
    (∀ md, WorkMetadata.work id ru doc = .ok md →
      select doc META_BLOCK ≠ [] ∧ select doc TITLE ≠ [] ∧ select doc AUTHOR ≠ [] ∧
      ∀ m, (select doc META_BLOCK).head? = some m →
        select m STATS_BLOCK ≠ [] ∧ select m RATING ≠ [] ∧ select m WARNING ≠ [] ∧
        select m CATEGORY ≠ [] ∧ select m FANDOMS ≠ [] ∧ select m RELATIONSHIPS ≠ [] ∧
        select m CHARACTERS ≠ [] ∧ select m FREEFORMS ≠ [] ∧
        ∀ s, (select m STATS_BLOCK).head? = some s →
          select s PUBLISHED_DATE ≠ [] ∧ select s WORDS ≠ [] ∧ select s CHAPTERS ≠ []) := by
  refine ⟨?_, ?_, ?_, ?_, ?_, ?_, ?_, ?_⟩
  · intro h
    unfold WorkMetadata.work
    (repeat' split) <;> simp_all [select_one_eq_error_iff, select_one_eq_ok_iff]
  · intro h
    unfold WorkMetadata.work
    (repeat' split) <;> simp_all [select_one_eq_error_iff, select_one_eq_ok_iff]
  · intro h
    unfold WorkMetadata.work
    (repeat' split) <;> simp_all [select_one_eq_error_iff, select_one_eq_ok_iff]
  · intro a ha h
    unfold WorkMetadata.work
    (repeat' split) <;> simp_all [select_one_eq_error_iff, select_one_eq_ok_iff]
  · intro m hm hdisj
    unfold WorkMetadata.work
    rcases hdisj with h | h | h | h | h | h | h | h <;>
      ((repeat' split) <;> simp_all [select_one_eq_error_iff, select_one_eq_ok_iff])
  · intro m s hm hs hdisj
    unfold WorkMetadata.work
    rcases hdisj with h | h <;>
      ((repeat' split) <;> simp_all [select_one_eq_error_iff, select_one_eq_ok_iff])
  · intro m s wEl w hm hs hw hok h
    unfold WorkMetadata.work
    (repeat' split) <;> simp_all [select_one_eq_error_iff, select_one_eq_ok_iff]
  · intro md h
    rw [work_eq_ok_iff] at h
    obtain ⟨meta, stats, titleEl, author_element, author_url, rt, ct, ratingEl, warningEl,
      categoryEl, fandomEl, relationshipEl, characterEl, freeformEl, publishedEl, wordsEl,
      wordCount, chaptersEl, chapterNum, total_chapters,
      h1, h2, h3, h4, h5, h6, h7, h8, h9, h10, h11, h12, h13, h14, h15, h16, h17, h18, h19,
      hmd⟩ := h
    rw [select_one_eq_ok_iff] at h6 h8 h9 h11 h12 h13 h14 h15 h16 h18
    refine ⟨head_some_ne_nil h1, head_some_ne_nil h3, head_some_ne_nil h4, ?_⟩
    intro m hm
    rw [hm] at h1
    injection h1 with h1
    subst h1
    refine ⟨head_some_ne_nil h2, head_some_ne_nil h6, head_some_ne_nil h8,
      head_some_ne_nil h9, head_some_ne_nil h11, head_some_ne_nil h12,
      head_some_ne_nil h13, head_some_ne_nil h14, ?_⟩
    intro s hs
    rw [hs] at h2
    injection h2 with h2
    subst h2
    exact ⟨head_some_ne_nil h15, head_some_ne_nil h16, head_some_ne_nil h18⟩

/-- C3 counterexample: in `badWordsNoChaptersDoc` the mandatory
`dd.chapters` query matches zero nodes, yet extraction fails with the
malformed-number error `IntError` (the word-count text `"x"` is parsed
first), not the claimed `NotFound`-style `WorkError`. -/
theorem extraction_all_or_nothing_counterexample :
    (statsOf badWordsNoChaptersDoc).elim False (fun s => select s CHAPTERS = []) ∧
    WorkMetadata.work 1 "r" badWordsNoChaptersDoc = .error .IntError ∧
    WorkMetadata.work 1 "r" badWordsNoChaptersDoc ≠ .error .WorkError := by
  refine ⟨rfl, rfl, ?_⟩
  intro h
  exact absurd (Except.error.inj h) (by decide)

/-- C3 witness: a document with no `h2.title` extracts to the
`NotFound`-style error. -/
theorem extraction_all_or_nothing_witness :
    WorkMetadata.work 1 "r" noTitleDoc = .error .WorkError :=
  (extraction_all_or_nothing noTitleDoc 1 "r").2.1 rfl

/-- The result of extracting `okDoc` with id 42 and redirect `"r"`. -/
def okMd : WorkMetadata :=
  { id := 42, redirect_url := "r", title := "My Title", author := "Jane",
    author_url := "/users/jane", published_date := "2024-01-01",
    fandoms := ["A", "B", "C"], warnings := [], relationships := [],
    characters := ["Alice"], tags := ["Fluff"], words := 12345, chapter := 3,
    total_chapters := some 7 }

/-- C6: the word-count text has its comma separators stripped and is
parsed as an unsigned integer (`IntError` on a non-numeric remainder);
the chapters text goes through the grammar parser (`ParsingError` on
parser failure); end to end, words text `"12,345"` and chapters text
`"3/7"` extract to `words = 12345`, `chapter = 3`,
`total_chapters = some 7`. -/
theorem numeric_extraction (doc : Node) (id : Nat) (ru : String) :
    parseWords "12,345" = .ok 12345 ∧
    parseChapters "3/7" = .ok (3, some 7) ∧
    (∀ s, parseU64 (stripCommas s) = none → parseWords s = .error .IntError) ∧
    (∀ s, chapters s.data = none → parseChapters s = .error .ParsingError) ∧
    (∀ md, WorkMetadata.work id ru doc = .ok md →
      wordsTextOf doc = some "12,345" → chaptersTextOf doc = some "3/7" →
      md.words = 12345 ∧ md.chapter = 3 ∧ md.total_chapters = some 7) := by
  refine ⟨rfl, rfl, ?_, ?_, ?_⟩
  · intro s h
    unfold parseWords
    rw [h]
  · intro s h
    unfold parseChapters
    rw [h]
  · intro md h hw hc
    rw [work_eq_ok_iff] at h
    obtain ⟨meta, stats, titleEl, author_element, author_url, rt, ct, ratingEl, warningEl,
      categoryEl, fandomEl, relationshipEl, characterEl, freeformEl, publishedEl, wordsEl,
      wordCount, chaptersEl, chapterNum, total_chapters,
      h1, h2, h3, h4, h5, h6, h7, h8, h9, h10, h11, h12, h13, h14, h15, h16, h17, h18, h19,
      hmd⟩ := h
    rw [select_one_eq_ok_iff] at h16 h18
    simp only [wordsTextOf, chaptersTextOf, statsOf, metaOf, h1, h2, h16, h18,
      Option.some_bind, Option.map_some', Option.some.injEq] at hw hc
    rw [hw] at h17
    rw [hc] at h19
    have hw2 : parseWords "12,345" = .ok 12345 := rfl
    have hc2 : parseChapters "3/7" = .ok (3, some 7) := rfl
    rw [hw2] at h17
    rw [hc2] at h19
    injection h17 with h17
    injection h19 with h19
    injection h19 with h19a h19b
    subst hmd
    exact ⟨h17.symm, h19a.symm, h19b.symm⟩

/-- C6 witness: the end-to-end conjunct applied to `okDoc`. -/
theorem numeric_extraction_witness :
    okMd.words = 12345 ∧ okMd.chapter = 3 ∧ okMd.total_chapters = some 7 :=
  (numeric_extraction okDoc 42 "r").2.2.2.2 okMd rfl rfl rfl

/-- The list field of the first node matched by `sel` inside the
metadata block: the path every list-valued field is read from. -/
def listFieldVia (doc : Node) (sel : Selector) : Option (List String) :=
  (metaOf doc).bind fun m => ((select m sel).head?).map (fun el => (get_tags el).map Tag.text)

/-- C7: each list-valued field of a successfully extracted
`WorkMetadata` is exactly the text of every `a.tag` node under its
scoped query, in document order (`select` enumerates descendants in
pre-order and `get_tags`/`map` preserve that order); zero matching tag
nodes under a present block yield an empty list, not an error. -/
theorem list_fields_document_order (doc : Node) (id : Nat) (ru : String) :
    (∀ el, (get_tags el).map Tag.text =
      ((el.descendants.filter (fun n => matchesSel n TAG)).map Node.innerHtml)) ∧
    (∀ md, WorkMetadata.work id ru doc = .ok md →
      listFieldVia doc FANDOMS = some md.fandoms ∧
      listFieldVia doc WARNING = some md.warnings ∧
      listFieldVia doc RELATIONSHIPS = some md.relationships ∧
      listFieldVia doc CHARACTERS = some md.characters ∧
      listFieldVia doc FREEFORMS = some md.tags) := by
  constructor
  · intro el
    simp only [get_tags, select, List.map_map]
    rfl
  · intro md h
    rw [work_eq_ok_iff] at h
    obtain ⟨meta, stats, titleEl, author_element, author_url, rt, ct, ratingEl, warningEl,
      categoryEl, fandomEl, relationshipEl, characterEl, freeformEl, publishedEl, wordsEl,
      wordCount, chaptersEl, chapterNum, total_chapters,
      h1, h2, h3, h4, h5, h6, h7, h8, h9, h10, h11, h12, h13, h14, h15, h16, h17, h18, h19,
      hmd⟩ := h
    rw [select_one_eq_ok_iff] at h8 h11 h12 h13 h14
    subst hmd
    simp only [listFieldVia, metaOf, h1, h8, h11, h12, h13, h14, Option.some_bind,
      Option.map_some']
    exact ⟨trivial, trivial, trivial, trivial, trivial⟩

/-- C7 witness: extracting `okDoc` (fandoms structurally A, B, C; a
warning block with zero tag nodes) yields `fandoms = ["A", "B", "C"]`
in document order and `warnings = []` without error. -/
theorem list_fields_document_order_witness :
    WorkMetadata.work 42 "r" okDoc = .ok okMd ∧
    okMd.fandoms = ["A", "B", "C"] ∧ okMd.warnings = [] := by
  have h := (list_fields_document_order okDoc 42 "r").2 okMd rfl
  refine ⟨rfl, ?_, ?_⟩
  · exact (Option.some.inj ((show listFieldVia okDoc FANDOMS = some ["A", "B", "C"] from
      rfl).symm.trans h.1)).symm
  · exact (Option.some.inj ((show listFieldVia okDoc WARNING = some [] from
      rfl).symm.trans h.2.1)).symm

/-- Well-formed document whose chapters text is `"5/3"`: current
chapter 5 of a claimed total of 3. -/
def chapterGtTotalDoc : Node :=
  docRoot [titleNode, authorNode,
    workBlockNode
      (stdMeta [mkTag "General"] [mkTag "W"] [mkTag "Gen"] [] [] [] []
        ++ [statsBlockNode
              [dd "published" "2024-01-01" [], dd "words" "100" [],
               dd "chapters" "5/3" []]])]

def chapterGtTotalMd : WorkMetadata :=
  { id := 1, redirect_url := "r", title := "My Title", author := "Jane",
    author_url := "/users/jane", published_date := "2024-01-01",
    fandoms := [], warnings := ["W"], relationships := [],
    characters := [], tags := [], words := 100, chapter := 5,
    total_chapters := some 3 }

/-- C8 (amended): the extractor does not enforce any relation between
the chapter number and the total-chapter count — a successful
extraction's `chapter` and `total_chapters` are exactly the pair parsed
from the document's chapters text, so `chapter ≤ total` holds precisely
when the document's own numbers satisfy it. -/
theorem chapter_total_unenforced (doc : Node) (id : Nat) (ru : String) :
    ∀ md, WorkMetadata.work id ru doc = .ok md →
      ∃ s, chaptersTextOf doc = some s ∧
        parseChapters s = .ok (md.chapter, md.total_chapters) := by
  intro md h
  rw [work_eq_ok_iff] at h
  obtain ⟨meta, stats, titleEl, author_element, author_url, rt, ct, ratingEl, warningEl,
    categoryEl, fandomEl, relationshipEl, characterEl, freeformEl, publishedEl, wordsEl,
    wordCount, chaptersEl, chapterNum, total_chapters,
    h1, h2, h3, h4, h5, h6, h7, h8, h9, h10, h11, h12, h13, h14, h15, h16, h17, h18, h19,
    hmd⟩ := h
  rw [select_one_eq_ok_iff] at h18
  subst hmd
  exact ⟨chaptersEl.innerHtml,
    by simp only [chaptersTextOf, statsOf, metaOf, h1, h2, h18, Option.some_bind,
         Option.map_some'], h19⟩

/-- C8 counterexample: `chapterGtTotalDoc` extracts successfully with
`chapter = 5` and `total_chapters = some 3`, violating
`chapter ≤ total`. -/
theorem chapter_le_total_counterexample :
    WorkMetadata.work 1 "r" chapterGtTotalDoc = .ok chapterGtTotalMd ∧
    chapterGtTotalMd.total_chapters = some 3 ∧ ¬ chapterGtTotalMd.chapter ≤ 3 :=
  ⟨rfl, rfl, by decide⟩

/-- C8 witness: the amended statement at `okDoc`, whose chapters text
`"3/7"` parses to the record's `(chapter, total_chapters)`. -/
theorem chapter_total_unenforced_witness :
    chaptersTextOf okDoc = some "3/7" ∧
    parseChapters "3/7" = .ok (okMd.chapter, okMd.total_chapters) := by
  obtain ⟨s, hs, hp⟩ := chapter_total_unenforced okDoc 42 "r" okMd rfl
  have h37 : s = "3/7" :=
    (Option.some.inj ((show chaptersTextOf okDoc = some "3/7" from rfl).symm.trans hs)).symm
  subst h37
  exact ⟨hs, hp⟩

/-- Well-formed document whose rating tag text and category tag text
are the parameters; used to show neither value reaches the record. -/
def ratingCategoryDoc (rs cs : String) : Node :=
  docRoot [titleNode, authorNode,
    workBlockNode
      (stdMeta [mkTag rs] [mkTag "W"] [mkTag cs] [] [] [] []
        ++ [statsBlockNode stdStats])]

/-- Like `okDoc` but the rating block contains zero tag nodes. -/
def emptyRatingDoc : Node :=
  docRoot [titleNode, authorNode,
    workBlockNode
      (stdMeta [] [mkTag "W"] [mkTag "Gen"] [] [] [] []
        ++ [statsBlockNode stdStats])]

/-- C10: extraction demands a rating sub-block and a category sub-block
each holding at least one tag link — a missing block or a tagless block
is the `NotFound`-style error — although neither value appears in the
resulting record: the extraction result is the same whatever the rating
and category tag texts are. -/
theorem rating_category_mandatory (doc : Node) (id : Nat) (ru : String) :
    (∀ m, (select doc META_BLOCK).head? = some m →
      (select m RATING = [] ∨ ∃ rEl, (select m RATING).head? = some rEl ∧ get_tags rEl = []) →
      WorkMetadata.work id ru doc = .error .WorkError) ∧
    (∀ m, (select doc META_BLOCK).head? = some m →
      (select m CATEGORY = [] ∨
        ∃ cEl, (select m CATEGORY).head? = some cEl ∧ get_tags cEl = []) →
      WorkMetadata.work id ru doc = .error .WorkError) ∧
    (∀ rs cs, WorkMetadata.work 7 ru (ratingCategoryDoc rs cs) =
      WorkMetadata.work 7 ru (ratingCategoryDoc "" "")) := by
  refine ⟨?_, ?_, ?_⟩
  · intro m hm hdisj
    unfold WorkMetadata.work
    rcases hdisj with h | ⟨rEl, hr, h⟩ <;>
      ((repeat' split) <;> simp_all [select_one_eq_error_iff, select_one_eq_ok_iff])
  · intro m hm hdisj
    unfold WorkMetadata.work
    rcases hdisj with h | ⟨cEl, hc, h⟩ <;>
      ((repeat' split) <;> simp_all [select_one_eq_error_iff, select_one_eq_ok_iff])
  · intro rs cs
    rfl

/-- C10 witness: a present rating block with zero tag links is the
`NotFound`-style error. -/
theorem rating_category_mandatory_witness :
    WorkMetadata.work 1 "r" emptyRatingDoc = .error .WorkError :=
  (rating_category_mandatory emptyRatingDoc 1 "r").1 _ rfl
    (Or.inr ⟨dd "rating" "" [], rfl, rfl⟩)

/-- C9: the preview description is the concatenation, in order, of the
joined warning labels, joined character labels and joined free-form tag
labels, with the three groups separated by newlines; within a group
`join_quoted` places `", "` between consecutive labels (and adds no
quotation marks). -/
theorem description_composition (host : String) (encodeForm : EmbedRequest → String)
    (w : WorkMetadata) :
    (workTemplateOfMetadata host encodeForm w).description =
      join_quoted w.warnings ++ "\n" ++ join_quoted w.characters ++ "\n" ++ join_quoted w.tags ∧
    join_quoted [] = "" ∧
    (∀ x, join_quoted [x] = x) ∧
    (∀ x y l, join_quoted (x :: y :: l) = x ++ ", " ++ join_quoted (y :: l)) := by
  refine ⟨rfl, rfl, ?_, ?_⟩
  · intro x
    apply String.ext
    simp [join_quoted]
  · intro x y l
    apply String.ext
    simp [join_quoted, List.intersperse]

/-- C4: with no intervening eviction, two sequential cache-gated
lookups of the same identifier whose first call's fetch-and-extract
succeeds return the identical `WorkMetadata` both times and perform
exactly one fetch — the first call fetches once and stores the value,
the second is a pure cache hit (zero fetches) leaving the store
untouched. -/
theorem cache_idempotent (fetchW : Nat → Except WorkError WorkMetadata) (cache : Cache)
    (id : Nat) (w : WorkMetadata) (hmiss : cache id = none) (hfetch : fetchW id = .ok w) :
    getOrFetch fetchW cache id = (some w, cache.insert id w, 1) ∧
    getOrFetch fetchW (getOrFetch fetchW cache id).2.1 id =
      (some w, cache.insert id w, 0) := by
  have h1 : getOrFetch fetchW cache id = (some w, cache.insert id w, 1) := by
    unfold getOrFetch
    rw [hmiss, hfetch]
  refine ⟨h1, ?_⟩
  rw [h1]
  show getOrFetch fetchW (cache.insert id w) id = (some w, cache.insert id w, 0)
  have hhit : (cache.insert id w) id = some w := by
    unfold Cache.insert
    simp
  unfold getOrFetch
  rw [hhit]

/-- C4 witness: the two calls on an initially empty cache. -/
theorem cache_idempotent_witness :
    getOrFetch (fun _ => .ok okMd) (fun _ => none) 42 =
      (some okMd, Cache.insert (fun _ => none) 42 okMd, 1) ∧
    getOrFetch (fun _ => .ok okMd)
        (getOrFetch (fun _ => .ok okMd) (fun _ => none) 42).2.1 42 =
      (some okMd, Cache.insert (fun _ => none) 42 okMd, 0) :=
  cache_idempotent (fun _ => .ok okMd) (fun _ => none) 42 okMd rfl rfl

/-- C5: when the fetch-and-extract for an uncached identifier fails,
the cache-gated lookup returns the very same store (no entry inserted),
reports no value, and the request-gate handler for a bot-classified
caller degrades to the redirect with the cache still unchanged. -/
theorem fetch_failure_not_cached (fetchW : Nat → Except WorkError WorkMetadata)
    (cache : Cache) (id : Nat) (e : WorkError) (hmiss : cache id = none)
    (hfail : fetchW id = .error e) :
    getOrFetch fetchW cache id = (none, cache, 1) ∧
    (∀ ctx : Ctx, ∀ path ua, ctx.fetchWork = fetchW → ctx.isBot ua = true →
      work_response ctx id path ua cache =
        (.redirect (redirectUrlFor id path), cache, 1)) := by
  have h1 : getOrFetch fetchW cache id = (none, cache, 1) := by
    unfold getOrFetch
    rw [hmiss, hfail]
  refine ⟨h1, ?_⟩
  intro ctx path ua hctx hbot
  unfold work_response
  rw [hbot, hctx, h1]
  simp

/-- C5 witness: a failing fetch on an empty cache. -/
theorem fetch_failure_not_cached_witness :
    getOrFetch (fun _ => .error .RequestError) (fun _ => none) 9 =
      (none, (fun _ => none : Cache), 1) :=
  (fetch_failure_not_cached (fun _ => .error .RequestError) (fun _ => none) 9
    .RequestError rfl rfl).1

/-- C1: bot gating.  A human-classified caller always receives the
temporary redirect to `https://archiveofourown.org/works/{id}/{path}`
with the cache untouched and zero fetch-and-extract calls, regardless
of cache state.  A bot-classified caller receives the minified preview
document whenever lookup/fetch and templating/minification succeed, and
receives that same redirect exactly when the lookup yields no metadata
or templating/minification fails — no failure surfaces as an error
response. -/
theorem bot_gating (ctx : Ctx) (id : Nat) (path : Option String) (ua : String)
    (cache : Cache) :
    (ctx.isBot ua = false →
      work_response ctx id path ua cache =
        (.redirect (redirectUrlFor id path), cache, 0)) ∧
    (ctx.isBot ua = true →
      (∀ w h, (getOrFetch ctx.fetchWork cache id).1 = some w →
        render_html ctx (workTemplateOfMetadata ctx.host ctx.encodeForm w) = .ok h →
        (work_response ctx id path ua cache).1 = .html h) ∧
      ((work_response ctx id path ua cache).1 = .redirect (redirectUrlFor id path) ↔
        (getOrFetch ctx.fetchWork cache id).1 = none ∨
        ∃ w e, (getOrFetch ctx.fetchWork cache id).1 = some w ∧
          render_html ctx (workTemplateOfMetadata ctx.host ctx.encodeForm w) = .error e)) := by
  constructor
  · intro hhuman
    unfold work_response
    rw [hhuman]
    simp
  · intro hbot
    rcases hgf : getOrFetch ctx.fetchWork cache id with ⟨res, cache2, n⟩
    cases res with
    | none =>
      have hwr : work_response ctx id path ua cache =
          (.redirect (redirectUrlFor id path), cache2, n) := by
        unfold work_response
        rw [hbot, hgf]
        simp
      refine ⟨?_, ?_⟩
      · intro w2 h2 hw2 _
        exact Option.noConfusion hw2
      · rw [hwr]
        simp
    | some w =>
      rcases hr : render_html ctx (workTemplateOfMetadata ctx.host ctx.encodeForm w)
        with e | h
      · have hwr : work_response ctx id path ua cache =
            (.redirect (redirectUrlFor id path), cache2, n) := by
          unfold work_response
          rw [hbot, hgf]
          simp [hr]
        refine ⟨?_, ?_⟩
        · intro w2 h2 hw2 hr2
          have hww : w = w2 := Option.some.inj hw2
          subst hww
          rw [hr] at hr2
          exact Except.noConfusion hr2
        · rw [hwr]
          constructor
          · intro _
            exact Or.inr ⟨w, e, rfl, hr⟩
          · intro _
            rfl
      · have hwr : work_response ctx id path ua cache = (.html h, cache2, n) := by
          unfold work_response
          rw [hbot, hgf]
          simp [hr]
        refine ⟨?_, ?_⟩
        · intro w2 h2 hw2 hr2
          have hww : w = w2 := Option.some.inj hw2
          subst hww
          rw [hr] at hr2
          injection hr2 with hr2
          simp [hwr, hr2]
        · rw [hwr]
          constructor
          · intro habs
            exact absurd habs (by simp)
          · rintro (habs | ⟨w2, e2, hw2, hr2⟩)
            · exact Option.noConfusion habs
            · have hww : w = w2 := Option.some.inj hw2
              subst hww
              rw [hr] at hr2
              exact Except.noConfusion hr2

/-- A human-classified request context (the bot oracle says "not a
bot"); the other collaborators are never consulted on this path. -/
def humanCtx : Ctx :=
  { isBot := fun _ => false, fetchWork := fun _ => .error .RequestError,
    render := fun _ => none, minify := fun _ => [], fromUtf8 := fun _ => none,
    host := "http://localhost:3000", encodeForm := fun _ => "" }

/-- C1 witness: a human-classified caller for work 5 with trailing path
`chapters/2` is redirected to the canonical origin URL, with no fetch
and the cache unchanged. -/
theorem bot_gating_witness :
    work_response humanCtx 5 (some "chapters/2") "Mozilla" (fun _ => none) =
      (.redirect "https://archiveofourown.org/works/5/chapters/2",
        (fun _ => none : Cache), 0) :=
  (bot_gating humanCtx 5 (some "chapters/2") "Mozilla" (fun _ => none)).1 rfl

end Ao3
